import Mathlib

/-!
Shallow embedding of the Timekeeping & Display Synchronization Engine of the
multifunctional-clock firmware (ClockManager.h, TimerManager.h, config.h).
C `int` fields are modelled as `Int`, C `unsigned long` millisecond/epoch
values as `Nat` (no value in the verified paths approaches 2^32).
-/

namespace Clock

/-! ### Constants from config.h -/

def TIMEZONE_OFFSET : Nat := 1
def DST_OFFSET : Nat := 1
def NIGHT_MODE_START : Int := 22
def NIGHT_MODE_END : Int := 7
def NIGHT_BRIGHTNESS : Nat := 50
def LED_RING_MINUTES_COUNT : Nat := 60
def LED_RING_HOURS_COUNT : Nat := 12
def COLOR_SECONDS : Nat := 0xFF0000
def COLOR_MINUTES : Nat := 0x00FF00
def COLOR_HOURS : Nat := 0x0000FF
def COLOR_OVERLAP : Nat := 0xFFFF00

/-! ### Data model: TimeInfo struct and ClockManager state (ClockManager.h) -/

structure TimeInfo where
  hours : Int
  minutes : Int
  seconds : Int
  day : Int
  month : Int
  year : Int
  weekday : Int
  isValid : Bool
deriving DecidableEq

structure ClockState where
  currentTime : TimeInfo
  lastTimeUpdate : Nat
  timeValidated : Bool
  inHourAnimation : Bool
  animationStart : Nat
  animationStep : Int
  nightModeActive : Bool
  currentBrightness : Nat
  lastHour : Int
  lastMinute : Int
  lastSecond : Int
deriving DecidableEq

/-- The state established by the `ClockManager` constructor. -/
def initClockState : ClockState where
  currentTime :=
    { hours := 0, minutes := 0, seconds := 0, day := 1, month := 1,
      year := 2025, weekday := 1, isValid := false }
  lastTimeUpdate := 0
  timeValidated := false
  inHourAnimation := false
  animationStart := 0
  animationStep := 0
  nightModeActive := false
  currentBrightness := 255
  lastHour := -1
  lastMinute := -1
  lastSecond := -1

/-! ### Epoch-to-calendar conversion (ClockManager::updateTimeFromEpoch) -/

def isLeapYear (year : Int) : Bool :=
  (year % 4 == 0 && year % 100 != 0) || year % 400 == 0

/-- One fuel-indexed encoding of the `while (days >= 365)` year-derivation
loop of `updateTimeFromEpoch`, with its three branches in source order.
The fuel only bounds the iteration count; it never cuts the loop short,
because every iteration consumes at least 365 days. -/
def yearLoopAux : Nat → Nat → Int → Nat × Int
  | 0, days, year => (days, year)
  | fuel + 1, days, year =>
    if 365 ≤ days then
      if isLeapYear year ∧ 366 ≤ days then
        yearLoopAux fuel (days - 366) (year + 1)
      else if ¬ (isLeapYear year = true) then
        yearLoopAux fuel (days - 365) (year + 1)
      else
        (days, year)
    else (days, year)

/-- The `while (days >= 365)` loop: `days` itself is always enough fuel,
since the loop runs at most `days / 365` times. -/
def yearLoop (days : Nat) (year : Int) : Nat × Int :=
  yearLoopAux days days year

def updateTimeFromEpoch (t : TimeInfo) (epochTime : Nat) : TimeInfo :=
  let e := epochTime + TIMEZONE_OFFSET * 3600
  let e := e + DST_OFFSET * 3600
  let seconds : Int := (e % 60 : Nat)
  let e := e / 60
  let minutes : Int := (e % 60 : Nat)
  let e := e / 60
  let hours : Int := (e % 24 : Nat)
  let e := e / 24
  let weekday : Int := ((e + 4) % 7 : Nat)
  let days := e
  let p := yearLoop days 1970
  { t with
    seconds := seconds
    minutes := minutes
    hours := hours
    weekday := weekday
    year := p.2
    month := 1
    day := (p.1 : Int) + 1
    isValid := true }

/-! ### ClockManager operations -/

/-- Embeds `ClockManager::triggerHourAnimation`: latch on entry, guarded by
`!inHourAnimation`; `now` stands for `millis()`. -/
def triggerHourAnimation (s : ClockState) (now : Nat) : ClockState :=
  if s.inHourAnimation then s
  else
    { s with
      inHourAnimation := true
      animationStart := now
      animationStep := 0 }

/-- Embeds `ClockManager::updateInternalTime`: increment seconds with carries into
minutes, hours and the day boundary; the hour carry triggers the animation. -/
def updateInternalTime (s : ClockState) (now : Nat) : ClockState :=
  let t := { s.currentTime with seconds := s.currentTime.seconds + 1 }
  if 60 ≤ t.seconds then
    let t := { t with
      seconds := 0
      minutes := t.minutes + 1 }
    if 60 ≤ t.minutes then
      let t := { t with
        minutes := 0
        hours := t.hours + 1 }
      let s := triggerHourAnimation { s with currentTime := t } now
      if 24 ≤ s.currentTime.hours then
        { s with currentTime := { s.currentTime with hours := 0 } }
      else s
    else { s with currentTime := t }
  else { s with currentTime := t }

/-- The `shouldBeNightMode` test of `ClockManager::updateNightMode`:
`hours >= NIGHT_MODE_START || hours < NIGHT_MODE_END`. -/
def shouldBeNightMode (hours : Int) : Bool :=
  decide (NIGHT_MODE_START ≤ hours) || decide (hours < NIGHT_MODE_END)

/-- Embeds `ClockManager::updateNightMode`; the boolean reports whether the state
changed, i.e. whether the hardware brightness write `FastLED.setBrightness`
was performed. -/
def updateNightMode (s : ClockState) : ClockState × Bool :=
  let nm := shouldBeNightMode s.currentTime.hours
  if nm ≠ s.nightModeActive then
    ({ s with
        nightModeActive := nm
        currentBrightness := if nm then NIGHT_BRIGHTNESS else 255 }, true)
  else (s, false)

/-- Embeds `ClockManager::hasTimeChanged`. -/
def hasTimeChanged (s : ClockState) : Bool :=
  s.currentTime.hours != s.lastHour ||
  s.currentTime.minutes != s.lastMinute ||
  s.currentTime.seconds != s.lastSecond

/-- Embeds `ClockManager::updateLastDisplayedTime`. -/
def updateLastDisplayedTime (s : ClockState) : ClockState :=
  { s with
    lastHour := s.currentTime.hours
    lastMinute := s.currentTime.minutes
    lastSecond := s.currentTime.seconds }

/-- Embeds `ClockManager::updateHourAnimation`: while `elapsed < 5000` the state
fields are untouched (only pixels are drawn); at 5000 ms the animation ends. -/
def updateHourAnimation (s : ClockState) (now : Nat) : ClockState :=
  let elapsed := now - s.animationStart
  if elapsed < 5000 then s
  else { s with inHourAnimation := false }

/-- The part of `ClockManager::update` that runs before the change-detection
check: conditional internal-time step, night mode, hour animation. -/
def updatePre (s : ClockState) (now : Nat) : ClockState :=
  let s :=
    if 1000 ≤ now - s.lastTimeUpdate then
      { updateInternalTime s now with lastTimeUpdate := now }
    else s
  let s := (updateNightMode s).1
  if s.inHourAnimation then updateHourAnimation s now else s

/-- Embeds `ClockManager::update`: the boolean reports whether a redraw happened,
i.e. whether `updateLEDDisplay` (clear rings, write pixels, `FastLED.show`)
and `updateLastDisplayedTime` were called. -/
def update (s : ClockState) (now : Nat) : ClockState × Bool :=
  let s := updatePre s now
  if hasTimeChanged s then (updateLastDisplayedTime s, true) else (s, false)

/-- Embeds `ClockManager::syncWithNTP`. `wifiConnected` models
`WiFi.status() == WL_CONNECTED`; `response` is `some epoch` when the NTP
client reports `isTimeSet()` after the bounded 5-second wait, `none` on
timeout. -/
def syncWithNTP (wifiConnected : Bool) (response : Option Nat)
    (s : ClockState) : Bool × ClockState :=
  if !wifiConnected then (false, s)
  else
    match response with
    | none => (false, s)
    | some epochTime =>
      (true,
        { s with
          currentTime := updateTimeFromEpoch s.currentTime epochTime
          timeValidated := true })

/-! ### LED rendering (ClockManager::updateLEDDisplay) -/

structure CRGB where
  r : Nat
  g : Nat
  b : Nat
deriving DecidableEq

def CRGB.black : CRGB := ⟨0, 0, 0⟩

/-- Embeds `CRGB(c >> 16, (c >> 8) & 0xFF, c & 0xFF)` as used on the color macros. -/
def rgbOf (c : Nat) : CRGB :=
  ⟨c >>> 16, (c >>> 8) &&& 0xFF, c &&& 0xFF⟩

/-- Write one pixel of a ring. -/
def setPix (ring : Nat → CRGB) (i : Nat) (c : CRGB) : Nat → CRGB :=
  fun j => if j = i then c else ring j

/-- Embeds `ClockManager::updateLEDDisplay`, returning the produced frames of the
minutes ring and the hours ring (after `clearAllLEDs`). `Int.emod` agrees
with the C `%` on the nonnegative hour values this is called with. -/
def updateLEDDisplay (t : TimeInfo) : (Nat → CRGB) × (Nat → CRGB) :=
  let minutesLEDs : Nat → CRGB := fun _ => CRGB.black
  let hoursLEDs : Nat → CRGB := fun _ => CRGB.black
  let displayHour := t.hours % 12
  let hoursLEDs := setPix hoursLEDs displayHour.toNat (rgbOf COLOR_HOURS)
  let minutesLEDs := setPix minutesLEDs t.minutes.toNat (rgbOf COLOR_MINUTES)
  let minutesLEDs := setPix minutesLEDs t.seconds.toNat (rgbOf COLOR_SECONDS)
  let minutesLEDs :=
    if t.minutes == t.seconds then
      setPix minutesLEDs t.minutes.toNat (rgbOf COLOR_OVERLAP)
    else minutesLEDs
  (minutesLEDs, hoursLEDs)

/-! ### TimerManager (TimerManager.h) -/

structure TimerState where
  secondTickFlag : Bool
  animationActive : Bool
  animationTimer : Int
  displayTimer : Int
deriving DecidableEq

/-- The state established by the `TimerManager` constructor. -/
def initTimerState : TimerState where
  secondTickFlag := false
  animationActive := false
  animationTimer := 0
  displayTimer := 0

/-- Embeds `TimerManager::update`: consume a pending tick, step the animation
countdown, step the temporary-display countdown. -/
def timerUpdate (ts : TimerState) : TimerState :=
  let ts := if ts.secondTickFlag then { ts with secondTickFlag := false } else ts
  let ts :=
    if ts.animationActive ∧ 0 < ts.animationTimer then
      let ts := { ts with animationTimer := ts.animationTimer - 1 }
      if ts.animationTimer ≤ 0 then { ts with animationActive := false } else ts
    else ts
  if 0 < ts.displayTimer then { ts with displayTimer := ts.displayTimer - 1 }
  else ts

/-- Embeds `TimerManager::shouldStartHourAnimation`, with the RTC-read minute and
second passed in. -/
def shouldStartHourAnimation (ts : TimerState) (minutes seconds : Int) : Bool :=
  minutes == 0 && seconds == 0 && !ts.animationActive

/-- Embeds `TimerManager::startAnimation`. -/
def startAnimation (ts : TimerState) (durationMs : Int) : TimerState :=
  { ts with
    animationActive := true
    animationTimer := durationMs / 100 }

/-- Embeds `TimerManager::rtcCallback`: the interrupt handler; it writes `true`
into `secondTickFlag` through the cached pointer and does nothing else. -/
def rtcCallback (ts : TimerState) : TimerState :=
  { ts with secondTickFlag := true }

/-- Modelled from the spec: the main control loop (the sketch file is not
under src/) performs the level-triggered top-of-hour check on every update
pass — after `TimerManager::update` it calls `startAnimation` with the
5000 ms budget whenever `shouldStartHourAnimation` holds. The boolean
records whether an Idle-to-Running transition occurred in this pass. -/
def animationPass (ts : TimerState) (minutes seconds : Int) :
    TimerState × Bool :=
  let ts := timerUpdate ts
  if shouldStartHourAnimation ts minutes seconds then
    (startAnimation ts 5000, true)
  else (ts, false)

/-- Number of Idle-to-Running transitions over three consecutive update
passes during which the RTC reads minute = 0, second = 0. -/
def threeZeroPassTransitions (ts : TimerState) : Nat :=
  let p1 := animationPass ts 0 0
  let p2 := animationPass p1.1 0 0
  let p3 := animationPass p2.1 0 0
  (if p1.2 then 1 else 0) + (if p2.2 then 1 else 0) + (if p3.2 then 1 else 0)

/-! ### Simulated 60-second run (claim C1) -/

/-- Run `ClockManager::update` at `millis()` = 1000, 2000, …, `n`·1000
starting from the constructor state, counting redraws. -/
def simulateRedrawCount (n : Nat) : Nat :=
  ((List.range n).foldl
    (fun acc k =>
      let r := update acc.1 ((k + 1) * 1000)
      (r.1, acc.2 + if r.2 then 1 else 0))
    (initClockState, 0)).2

/-- Replace the hour field of the canonical time (used to express the
21-to-22 night-mode transition). -/
def withHour (s : ClockState) (h : Int) : ClockState :=
  { s with currentTime := { s.currentTime with hours := h } }

/-- A concrete in-range time used by witnesses: 03:07:07 on 2025-01-01. -/
def sampleTime : TimeInfo :=
  ⟨3, 7, 7, 1, 1, 2025, 1, true⟩

/-! ## Theorems -/

theorem hasTimeChanged_iff (s : ClockState) :
    hasTimeChanged s = true ↔
      (s.currentTime.hours ≠ s.lastHour ∨ s.currentTime.minutes ≠ s.lastMinute ∨
       s.currentTime.seconds ≠ s.lastSecond) := by
  simp [hasTimeChanged, or_assoc]

/-- C1: in every update cycle a redraw occurs iff at least one of the current
hour, minute, second differs from the last-displayed triple; over a simulated
60-second run with steadily incrementing seconds the redraw count is 60. -/
theorem update_redraw_iff_changed_and_sixty :
    (∀ (s : ClockState) (now : Nat),
      ((update s now).2 = true ↔
        ((updatePre s now).currentTime.hours ≠ (updatePre s now).lastHour ∨
         (updatePre s now).currentTime.minutes ≠ (updatePre s now).lastMinute ∨
         (updatePre s now).currentTime.seconds ≠ (updatePre s now).lastSecond))) ∧
    simulateRedrawCount 60 = 60 := by
  refine ⟨fun s now => ?_, by decide⟩
  have he : update s now =
      (if hasTimeChanged (updatePre s now) then
        (updateLastDisplayedTime (updatePre s now), true)
      else (updatePre s now, false)) := rfl
  by_cases hc : hasTimeChanged (updatePre s now) = true
  · rw [he, if_pos hc]
    exact iff_of_true rfl ((hasTimeChanged_iff _).mp hc)
  · rw [he, if_neg hc]
    exact iff_of_false (by simp) (fun h => hc ((hasTimeChanged_iff _).mpr h))


/-- C2: evaluation of `updateTimeFromEpoch` at the epoch of 2024-02-29
(1709164800) and at the epoch of 2025-03-01 (1740787200): the code leaves
`month = 1` and stores the day-of-year in `day`, instead of the claimed
day-of-month/month pair (29/2, resp. 1/3). -/
theorem updateTimeFromEpoch_day_of_year_bug :
    (updateTimeFromEpoch initClockState.currentTime 1709164800).year = 2024 ∧
    (updateTimeFromEpoch initClockState.currentTime 1709164800).month = 1 ∧
    (updateTimeFromEpoch initClockState.currentTime 1709164800).day = 60 ∧
    (updateTimeFromEpoch initClockState.currentTime 1740787200).year = 2025 ∧
    (updateTimeFromEpoch initClockState.currentTime 1740787200).month = 1 ∧
    (updateTimeFromEpoch initClockState.currentTime 1740787200).day = 60 := by
  decide

/-- C3: when WiFi is disconnected or the bounded NTP wait times out,
`syncWithNTP` returns failure and leaves the whole clock state — in
particular the current time fields and the validity flag — untouched. -/
theorem syncWithNTP_failure_preserves_state (wifi : Bool) (resp : Option Nat)
    (s : ClockState) (h : wifi = false ∨ resp = none) :
    (syncWithNTP wifi resp s).1 = false ∧
    (syncWithNTP wifi resp s).2.currentTime = s.currentTime ∧
    (syncWithNTP wifi resp s).2.timeValidated = s.timeValidated ∧
    (syncWithNTP wifi resp s).2 = s := by
  rcases h with h | h
  · subst h
    simp [syncWithNTP]
  · subst h
    cases wifi <;> simp [syncWithNTP]

/-- Witness for C3 at a concrete input: disconnected network, constructor
state. -/
theorem syncWithNTP_failure_witness :
    (false = false ∨ (none : Option Nat) = none) ∧
    ((syncWithNTP false none initClockState).1 = false ∧
     (syncWithNTP false none initClockState).2.currentTime = initClockState.currentTime ∧
     (syncWithNTP false none initClockState).2.timeValidated = initClockState.timeValidated ∧
     (syncWithNTP false none initClockState).2 = initClockState) :=
  ⟨Or.inl rfl,
   syncWithNTP_failure_preserves_state false none initClockState (Or.inl rfl)⟩

/-- C5: for an animation started at `t0`, one `updateHourAnimation` pass at
time `t ≥ t0` leaves the animation active exactly when `t < t0 + 5000`. -/
theorem hourAnimation_active_iff (s : ClockState) (t0 t : Nat)
    (h0 : s.inHourAnimation = false) (ht : t0 ≤ t) :
    ((updateHourAnimation (triggerHourAnimation s t0) t).inHourAnimation = true
      ↔ t < t0 + 5000) := by
  unfold triggerHourAnimation updateHourAnimation
  simp only [h0, Bool.false_eq_true, if_false]
  split
  · simp only [true_iff]
    omega
  · simp only [Bool.false_eq_true, false_iff]
    omega

/-- Witness for C5: animation started at t0 = 0, still active at t = 4999. -/
theorem hourAnimation_active_witness :
    initClockState.inHourAnimation = false ∧ (0 : Nat) ≤ 4999 ∧
    ((updateHourAnimation (triggerHourAnimation initClockState 0) 4999).inHourAnimation = true
      ↔ (4999 : Nat) < 0 + 5000) :=
  ⟨rfl, by decide, hourAnimation_active_iff initClockState 0 4999 rfl (by decide)⟩

/-- C8: the RTC interrupt callback's only effect on program state is raising
the one-bit tick-pending flag; every other field is untouched. -/
theorem rtcCallback_only_sets_flag (ts : TimerState) :
    (rtcCallback ts).secondTickFlag = true ∧
    (rtcCallback ts).animationActive = ts.animationActive ∧
    (rtcCallback ts).animationTimer = ts.animationTimer ∧
    (rtcCallback ts).displayTimer = ts.displayTimer :=
  ⟨rfl, rfl, rfl, rfl⟩

/-- C9 counterexample: with the network up and the NTP client reporting the
out-of-range epoch 0 (1970-01-01, long before the device existed),
`syncWithNTP` reports success and overwrites the previous time (year 2025
becomes 1970) — no invalid-response error path exists. -/
theorem syncWithNTP_applies_outOfRange_epoch :
    (syncWithNTP true (some 0) initClockState).1 = true ∧
    (syncWithNTP true (some 0) initClockState).2.currentTime.year = 1970 ∧
    initClockState.currentTime.year = 2025 := by
  decide

/-- C9 (amended): `syncWithNTP` performs no range validation — every epoch
value obtained from the NTP client is applied to the clock state and the
sync reports success. -/
theorem syncWithNTP_no_range_validation (s : ClockState) (epoch : Nat) :
    (syncWithNTP true (some epoch) s).1 = true ∧
    (syncWithNTP true (some epoch) s).2.currentTime
      = updateTimeFromEpoch s.currentTime epoch ∧
    (syncWithNTP true (some epoch) s).2.timeValidated = true := by
  simp [syncWithNTP]

theorem timerUpdate_inactive (f : Bool) (atm dt : Int) :
    timerUpdate ⟨f, false, atm, dt⟩ =
      ⟨false, false, atm, if 0 < dt then dt - 1 else dt⟩ := by
  cases f <;> simp [timerUpdate] <;> split_ifs <;> rfl

theorem timerUpdate_running (f : Bool) (atm dt : Int) (h : 1 < atm) :
    timerUpdate ⟨f, true, atm, dt⟩ =
      ⟨false, true, atm - 1, if 0 < dt then dt - 1 else dt⟩ := by
  cases f <;> simp only [timerUpdate] <;> split_ifs <;> simp_all <;> omega

/-- C4: starting from any state with no animation running, three consecutive
update passes that all read minute = 0, second = 0 start the hour animation
exactly once — the `animationActive` latch blocks the level-triggered check
on the second and third pass. -/
theorem topOfHourAnimation_fires_once (ts : TimerState)
    (h : ts.animationActive = false) :
    threeZeroPassTransitions ts = 1 := by
  obtain ⟨f, a, atm, dt⟩ := ts
  simp only at h
  subst h
  simp only [threeZeroPassTransitions, animationPass, timerUpdate_inactive,
    shouldStartHourAnimation, startAnimation]
  norm_num
  rw [timerUpdate_running false 50 _ (by norm_num)]
  norm_num
  rw [timerUpdate_running false 49 _ (by norm_num)]
  norm_num

/-- Witness for C4: from the constructor state the transition count over the
three zero-zero passes is exactly one. -/
theorem topOfHourAnimation_fires_once_witness :
    initTimerState.animationActive = false ∧
    threeZeroPassTransitions initTimerState = 1 :=
  ⟨rfl, topOfHourAnimation_fires_once initTimerState rfl⟩

/-- C6: when minute = second the shared minute-ring pixel carries the overlap
color, which differs from both the minute color and the second color; and for
every rendered time exactly the hour-ring pixel at `hour mod 12` is lit. -/
theorem updateLEDDisplay_overlap_and_single_hour (t : TimeInfo)
    (_hh : 0 ≤ t.hours) :
    (t.minutes = t.seconds →
      ((updateLEDDisplay t).1 t.minutes.toNat = rgbOf COLOR_OVERLAP ∧
       rgbOf COLOR_OVERLAP ≠ rgbOf COLOR_MINUTES ∧
       rgbOf COLOR_OVERLAP ≠ rgbOf COLOR_SECONDS)) ∧
    (∀ i : Nat,
      ((updateLEDDisplay t).2 i ≠ CRGB.black ↔ (i : Int) = t.hours % 12)) := by
  constructor
  · intro hms
    refine ⟨?_, by decide, by decide⟩
    simp [updateLEDDisplay, setPix, hms]
  · intro i
    have hnn : 0 ≤ t.hours % 12 := Int.emod_nonneg _ (by norm_num)
    simp only [updateLEDDisplay, setPix]
    by_cases hi : i = (t.hours % 12).toNat
    · subst hi
      simp only [if_pos rfl]
      constructor
      · intro _
        omega
      · intro _
        decide
    · simp only [if_neg hi]
      constructor
      · intro hb
        exact absurd rfl hb
      · intro hb
        exact absurd (by omega) hi

/-- Witness for C6 at the concrete time 03:07:07 (minute = second = 7). -/
theorem updateLEDDisplay_overlap_witness :
    (0 ≤ sampleTime.hours) ∧
    ((sampleTime.minutes = sampleTime.seconds →
      ((updateLEDDisplay sampleTime).1 sampleTime.minutes.toNat = rgbOf COLOR_OVERLAP ∧
       rgbOf COLOR_OVERLAP ≠ rgbOf COLOR_MINUTES ∧
       rgbOf COLOR_OVERLAP ≠ rgbOf COLOR_SECONDS)) ∧
    (∀ i : Nat,
      ((updateLEDDisplay sampleTime).2 i ≠ CRGB.black ↔ (i : Int) = sampleTime.hours % 12))) :=
  ⟨by decide, updateLEDDisplay_overlap_and_single_hour sampleTime (by decide)⟩

/-- C7: night mode is active exactly on the window `hour ≥ 22 ∨ hour < 7`
(so 23 and 6 are night, 8 is not); re-evaluating an unchanged state performs
no brightness write; and the 21-to-22 transition flips the state exactly
once. -/
theorem nightMode_window_and_hysteresis (s : ClockState)
    (ha : s.nightModeActive = false) (hh : s.currentTime.hours = 21) :
    (∀ h : Int,
      shouldBeNightMode h = true ↔ (NIGHT_MODE_START ≤ h ∨ h < NIGHT_MODE_END)) ∧
    shouldBeNightMode 23 = true ∧
    shouldBeNightMode 6 = true ∧
    shouldBeNightMode 8 = false ∧
    (∀ s2 : ClockState,
      shouldBeNightMode s2.currentTime.hours = s2.nightModeActive →
        updateNightMode s2 = (s2, false)) ∧
    (updateNightMode s).2 = false ∧
    (updateNightMode (withHour s 22)).2 = true ∧
    (updateNightMode (withHour s 22)).1.nightModeActive = true ∧
    (updateNightMode ((updateNightMode (withHour s 22)).1)).2 = false := by
  refine ⟨?_, by decide, by decide, by decide, ?_, ?_, ?_, ?_, ?_⟩
  · intro h
    simp [shouldBeNightMode]
  · intro s2 h2
    simp [updateNightMode, h2]
  · simp [updateNightMode, shouldBeNightMode, ha, hh, NIGHT_MODE_START, NIGHT_MODE_END]
  · simp [updateNightMode, shouldBeNightMode, withHour, ha, NIGHT_MODE_START, NIGHT_MODE_END]
  · simp [updateNightMode, shouldBeNightMode, withHour, ha, NIGHT_MODE_START, NIGHT_MODE_END]
  · simp [updateNightMode, shouldBeNightMode, withHour, ha, NIGHT_MODE_START, NIGHT_MODE_END]

/-- Witness for C7: the 21-to-22 transition from the constructor state (night
mode off) writes once, and re-evaluating at hour 22 writes nothing. -/
theorem nightMode_hysteresis_witness :
    (withHour initClockState 21).nightModeActive = false ∧
    (withHour initClockState 21).currentTime.hours = 21 ∧
    ((updateNightMode (withHour initClockState 21)).2 = false ∧
     (updateNightMode (withHour (withHour initClockState 21) 22)).2 = true ∧
     (updateNightMode ((updateNightMode (withHour (withHour initClockState 21) 22)).1)).2 = false) :=
  have h := nightMode_window_and_hysteresis (withHour initClockState 21) rfl rfl
  ⟨rfl, rfl, h.2.2.2.2.2.1, h.2.2.2.2.2.2.1, h.2.2.2.2.2.2.2.2⟩

/-- C10: one internal one-second step keeps seconds and minutes in 0–59 and
hours in 0–23, and the resulting time of day is the successor of the old one
modulo the 86400-second day. -/
theorem updateInternalTime_ranges (s : ClockState) (now : Nat)
    (h1 : 0 ≤ s.currentTime.seconds) (h2 : s.currentTime.seconds < 60)
    (h3 : 0 ≤ s.currentTime.minutes) (h4 : s.currentTime.minutes < 60)
    (h5 : 0 ≤ s.currentTime.hours) (h6 : s.currentTime.hours < 24) :
    (0 ≤ (updateInternalTime s now).currentTime.seconds ∧
      (updateInternalTime s now).currentTime.seconds < 60) ∧
    (0 ≤ (updateInternalTime s now).currentTime.minutes ∧
      (updateInternalTime s now).currentTime.minutes < 60) ∧
    (0 ≤ (updateInternalTime s now).currentTime.hours ∧
      (updateInternalTime s now).currentTime.hours < 24) ∧
    (updateInternalTime s now).currentTime.hours * 3600 +
      (updateInternalTime s now).currentTime.minutes * 60 +
      (updateInternalTime s now).currentTime.seconds
      = (s.currentTime.hours * 3600 + s.currentTime.minutes * 60 +
          s.currentTime.seconds + 1) % 86400 := by
  simp only [updateInternalTime, triggerHourAnimation]
  split_ifs <;> simp_all <;> omega

/-- Witness for C10: one step from the constructor state 00:00:00 at
`millis()` = 1000 yields 00:00:01. -/
theorem updateInternalTime_ranges_witness :
    (0 ≤ initClockState.currentTime.seconds ∧ initClockState.currentTime.seconds < 60 ∧
     0 ≤ initClockState.currentTime.minutes ∧ initClockState.currentTime.minutes < 60 ∧
     0 ≤ initClockState.currentTime.hours ∧ initClockState.currentTime.hours < 24) ∧
    ((0 ≤ (updateInternalTime initClockState 1000).currentTime.seconds ∧
      (updateInternalTime initClockState 1000).currentTime.seconds < 60) ∧
    (0 ≤ (updateInternalTime initClockState 1000).currentTime.minutes ∧
      (updateInternalTime initClockState 1000).currentTime.minutes < 60) ∧
    (0 ≤ (updateInternalTime initClockState 1000).currentTime.hours ∧
      (updateInternalTime initClockState 1000).currentTime.hours < 24) ∧
    (updateInternalTime initClockState 1000).currentTime.hours * 3600 +
      (updateInternalTime initClockState 1000).currentTime.minutes * 60 +
      (updateInternalTime initClockState 1000).currentTime.seconds
      = (initClockState.currentTime.hours * 3600 + initClockState.currentTime.minutes * 60 +
          initClockState.currentTime.seconds + 1) % 86400) :=
  ⟨⟨by decide, by decide, by decide, by decide, by decide, by decide⟩,
   updateInternalTime_ranges initClockState 1000 (by decide) (by decide)
     (by decide) (by decide) (by decide) (by decide)⟩

end Clock
